import Mathlib

/-!
Verification of the SM-CLI Device Session & Command Execution Engine
(`sm_cli.py`): the device registry (`DeviceDatabase`), the brand-knowledge
parser (`SSHCommandTool.get_brand_commands_from_prompt` /
`parse_brand_commands`), the command engine (`SSHCommandTool.forward`) and
the connectivity probe (`SSHTestTool.forward`).

The embedding is shallow: the SQLite `devices` table is a list of rows in
rowid order, the paramiko transport is an oracle (`Transport`) recording
connect/close effects as events, and Python strings are Lean `String`s with
hand-rolled structural primitives (split/strip/startswith/replace/lower/
upper) mirroring the Python string methods, so everything evaluates inside
the kernel.
-/

/-! ### String primitives (Python string methods, structurally recursive) -/

/-- Build a string from its character list. -/
def mkStr (l : List Char) : String := ⟨l⟩

/-- Python `str.split(sep)` for a one-character separator: `"".split` gives
`[""]`, separators at the ends give empty pieces. -/
def splitOnChar (sep : Char) : List Char → List (List Char)
  | [] => [[]]
  | c :: rest =>
    if c == sep then [] :: splitOnChar sep rest
    else
      match splitOnChar sep rest with
      | [] => [[c]]
      | l :: ls => (c :: l) :: ls

/-- Python `content.split('\n')`. -/
def pySplitLines (s : String) : List String := (splitOnChar '\n' s.data).map mkStr

/-- Python `text.split(',')`. -/
def splitOnComma (s : String) : List String := (splitOnChar ',' s.data).map mkStr

/-- Python `str.strip()` (whitespace at both ends). -/
def pyStrip (s : String) : String :=
  mkStr (((s.data.dropWhile Char.isWhitespace).reverse.dropWhile Char.isWhitespace).reverse)

/-- `p` is a leading segment of `s` (character lists). -/
def isPrefixChars : List Char → List Char → Bool
  | [], _ => true
  | _ :: _, [] => false
  | a :: as, b :: bs => a == b && isPrefixChars as bs

/-- Python `s.startswith(p)`. -/
def startsWithStr (s p : String) : Bool := isPrefixChars p.data s.data

/-- `sub` occurs contiguously inside the second list. -/
def isInfixChars (sub : List Char) : List Char → Bool
  | [] => sub.isEmpty
  | c :: rest => isPrefixChars sub (c :: rest) || isInfixChars sub rest

/-- Python `s2 in s`. -/
def containsStr (s sub : String) : Bool := isInfixChars sub.data s.data

/-- Python `s.replace(pat, rep)`: every non-overlapping occurrence, left to
right. Fuel-driven so it evaluates in the kernel; one unit of fuel per
character of `s` suffices because `pat` is nonempty at every call site. -/
def replaceAllFuel (pat rep : List Char) : Nat → List Char → List Char
  | 0, s => s
  | _ + 1, [] => []
  | fuel + 1, c :: rest =>
    if isPrefixChars pat (c :: rest) && !pat.isEmpty then
      rep ++ replaceAllFuel pat rep fuel ((c :: rest).drop pat.length)
    else
      c :: replaceAllFuel pat rep fuel rest

/-- Python `s.replace(pat, rep)`. -/
def pyReplace (s pat rep : String) : String :=
  mkStr (replaceAllFuel pat.data rep.data s.data.length s.data)

/-- Python `str.lower()`; `Char.toLower` folds ASCII `A`-`Z` only, which
covers every brand string the tool handles. -/
def lowerStr (s : String) : String := mkStr (s.data.map Char.toLower)

/-- Python `str.upper()` (ASCII). -/
def upperStr (s : String) : String := mkStr (s.data.map Char.toUpper)

/-- Python truthiness of a string: nonempty. -/
def pyTruthy (s : String) : Bool := !s.data.isEmpty

/-- Python truthiness of an optional string: `None` and `""` are falsy. -/
def optTruthy : Option String → Bool
  | none => false
  | some s => pyTruthy s

/-- Tail of `"\n".join`: every further piece preceded by the separator. -/
def joinLinesAux : List String → String
  | [] => ""
  | s :: rest => "\n" ++ s ++ joinLinesAux rest

/-- Python `"\n".join(lines)`. -/
def joinLines : List String → String
  | [] => ""
  | s :: rest => s ++ joinLinesAux rest

/-- Codepoint-lexicographic order on character lists: for UTF-8 text this is
exactly the byte order SQLite's default BINARY collation uses for TEXT. -/
def lexLe : List Char → List Char → Bool
  | [], _ => true
  | _ :: _, [] => false
  | a :: as, b :: bs =>
    if a.toNat < b.toNat then true
    else if b.toNat < a.toNat then false
    else lexLe as bs

/-- `ORDER BY` comparison on TEXT columns. -/
def strLeB (a b : String) : Bool := lexLe a.data b.data

/-- SQLite `col LIKE '%keyword%'` with the default `LIKE`: case-insensitive
on ASCII letters, i.e. substring containment after ASCII case folding.
(Keywords holding the LIKE wildcards `%`/`_` are outside this model; the
engine's queries only interpolate plain keywords.) -/
def sqlLike (s keyword : String) : Bool :=
  isInfixChars (lowerStr keyword).data (lowerStr s).data

/-! ### Device registry (`DeviceDatabase`, `devices` table) -/

/-- One row of the `devices` table (the `id INTEGER PRIMARY KEY` column is
never read by any caller and is omitted; rowid order is the list order). -/
structure DeviceRecord where
  host : String
  username : String
  password : String
  brand : String
deriving DecidableEq, Repr

/-- The `devices` table in rowid order. `host` is declared `UNIQUE`. -/
abbrev DeviceDB := List DeviceRecord

/-- `DeviceDatabase.add_device`: `INSERT OR REPLACE` keyed on the unique
`host` — a conflicting row is deleted and the new row inserted at a fresh
(largest) rowid. -/
def addDevice (db : DeviceDB) (host username password brand : String) : DeviceDB :=
  db.filter (fun r => !(r.host == host)) ++ [⟨host, username, password, brand⟩]

/-- `DeviceDatabase.get_device`: `SELECT * FROM devices WHERE host = ?`,
`fetchone` (first row in rowid order). -/
def getDevice (db : DeviceDB) (host : String) : Option DeviceRecord :=
  db.find? (fun r => r.host == host)

/-- Insert into a `le`-sorted list, keeping it sorted. -/
def insertLe {α : Type} (le : α → α → Bool) (a : α) : List α → List α
  | [] => [a]
  | b :: bs => if le a b then a :: b :: bs else b :: insertLe le a bs

/-- Insertion sort: the model of SQL `ORDER BY`. -/
def sortLe {α : Type} (le : α → α → Bool) : List α → List α
  | [] => []
  | a :: as => insertLe le a (sortLe le as)

/-- `ORDER BY host` comparison between rows. -/
def hostLeB (a b : DeviceRecord) : Bool := strLeB a.host b.host

/-- `DeviceDatabase.list_devices`: `SELECT * FROM devices ORDER BY host`. -/
def listDevices (db : DeviceDB) : DeviceDB := sortLe hostLeB db

/-- The row `update_device` writes: each field is overwritten exactly when
the corresponding argument is truthy (non-`None`, nonempty); `host` is never
touched. -/
def applyUpdates (r : DeviceRecord) (uNew pNew bNew : Option String) : DeviceRecord :=
  { r with
    username := if optTruthy uNew then uNew.getD r.username else r.username
    password := if optTruthy pNew then pNew.getD r.password else r.password
    brand := if optTruthy bNew then bNew.getD r.brand else r.brand }

/-- `DeviceDatabase.update_device`: builds the `SET` clause from the truthy
arguments, returns `False` without touching the table when no clause is
built, otherwise runs `UPDATE ... WHERE host = ?` and returns
`rowcount > 0` (SQLite counts every row the `WHERE` matched). -/
def updateDevice (db : DeviceDB) (host : String) (uNew pNew bNew : Option String) :
    Bool × DeviceDB :=
  if optTruthy uNew || optTruthy pNew || optTruthy bNew then
    (db.any (fun r => r.host == host),
     db.map (fun r => if r.host == host then applyUpdates r uNew pNew bNew else r))
  else
    (false, db)

/-- `DeviceDatabase.delete_device`: `DELETE FROM devices WHERE host = ?`,
returns `rowcount > 0`. -/
def deleteDevice (db : DeviceDB) (host : String) : Bool × DeviceDB :=
  (db.any (fun r => r.host == host), db.filter (fun r => !(r.host == host)))

/-- `DeviceDatabase.search_devices`:
`SELECT * FROM devices WHERE host LIKE '%kw%' OR username LIKE '%kw%'
ORDER BY host`. -/
def searchDevices (db : DeviceDB) (keyword : String) : DeviceDB :=
  sortLe hostLeB
    (db.filter (fun r => sqlLike r.host keyword || sqlLike r.username keyword))

/-- The `UNIQUE` constraint on `host`: at most one row per host. -/
def hostsUnique (db : DeviceDB) : Prop := (db.map (fun r => r.host)).Nodup

/-- A registry mutation, as exposed by the CLI command surface. -/
inductive RegOp where
  | add (host username password brand : String)
  | update (host : String) (uNew pNew bNew : Option String)
  | del (host : String)

/-- Run one registry mutation. -/
def applyOp (db : DeviceDB) : RegOp → DeviceDB
  | .add h u p b => addDevice db h u p b
  | .update h u p b => (updateDevice db h u p b).2
  | .del h => (deleteDevice db h).2

/-- Run a sequence of registry mutations. -/
def applyOps (db : DeviceDB) (ops : List RegOp) : DeviceDB := ops.foldl applyOp db

/-! ### Brand profile resolver (`parse_brand_commands` over `SM-CLI.md`) -/

/-- The `brand_mapping` dict of `parse_brand_commands`: lower-case brand key
to the heading of its section in `SM-CLI.md`. -/
def brandMapping (brand : String) : Option String :=
  if brand == "cisco" then some "Cisco设备"
  else if brand == "arista" then some "Arista设备"
  else if brand == "juniper" then some "Juniper设备"
  else if brand == "huawei" then some "Huawei设备"
  else if brand == "h3c" then some "H3C设备"
  else if brand == "fortinet" then some "Fortinet设备"
  else if brand == "palo" then some "Palo Alto设备"
  else none

/-- The `brand_info` dict accumulated while scanning the brand's section. -/
structure BrandInfo where
  commandStyle : Option String := none
  modeSwitch : Option String := none
  commonCommands : Option (List String) := none
  configSave : Option String := none
  specialFeatures : Option String := none
deriving DecidableEq, Repr

/-- The line loop of `parse_brand_commands`: enter the section at its
`#### ` heading, stop at the next `#### ` heading, and inside the section
record the five `- **...**: ` fields (last write wins). -/
def parseBrandLines (sect : String) : List String → Bool → BrandInfo → BrandInfo
  | [], _, info => info
  | l :: ls, inSec, info =>
    let line := pyStrip l
    if startsWithStr line ("#### " ++ sect) then
      parseBrandLines sect ls true info
    else if inSec && startsWithStr line "#### " && !startsWithStr line ("#### " ++ sect) then
      info
    else if inSec then
      if startsWithStr line "- **命令风格**: " then
        parseBrandLines sect ls inSec
          { info with commandStyle := some (pyReplace line "- **命令风格**: " "") }
      else if startsWithStr line "- **模式切换**: " then
        parseBrandLines sect ls inSec
          { info with modeSwitch := some (pyReplace line "- **模式切换**: " "") }
      else if startsWithStr line "- **常用命令**: " then
        let cmds := (splitOnComma (pyReplace line "- **常用命令**: " "")).map pyStrip
        parseBrandLines sect ls inSec { info with commonCommands := some cmds }
      else if startsWithStr line "- **配置保存**: " then
        parseBrandLines sect ls inSec
          { info with configSave := some (pyReplace line "- **配置保存**: " "") }
      else if startsWithStr line "- **特色功能**: " then
        parseBrandLines sect ls inSec
          { info with specialFeatures := some (pyReplace line "- **特色功能**: " "") }
      else
        parseBrandLines sect ls inSec info
    else
      parseBrandLines sect ls inSec info

/-- The `suggestions` list built after the scan, in source order: mode
switch, common commands (truthy ones, indented), config save, special
features. The parsed `command_style` field is never used. -/
def buildSuggestions (info : BrandInfo) : List String :=
  (match info.modeSwitch with
   | some v => ["模式切换: " ++ v]
   | none => []) ++
  (match info.commonCommands with
   | some cmds => "常用命令:" :: (cmds.filter pyTruthy).map (fun c => "  - " ++ c)
   | none => []) ++
  (match info.configSave with
   | some v => ["配置保存: " ++ v]
   | none => []) ++
  (match info.specialFeatures with
   | some v => ["特色功能: " ++ v]
   | none => [])

/-- `SSHCommandTool.parse_brand_commands(content, brand)`: `None` for a
brand outside `brand_mapping` or when nothing was collected, else the
suggestions joined with newlines. -/
def parseBrandCommands (content brand : String) : Option String :=
  match brandMapping (lowerStr brand) with
  | none => none
  | some sect =>
    let info := parseBrandLines sect (pySplitLines content) false {}
    let suggestions := buildSuggestions info
    if suggestions.isEmpty then none else some (joinLines suggestions)

/-- `SSHCommandTool.get_brand_commands_from_prompt(brand)`: the `SM-CLI.md`
knowledge source is `none` when the file is missing (or reading it raises,
which the source converts to `None`), else its text is parsed. -/
def getBrandCommandsFromPrompt (knowledge : Option String) (brand : String) : Option String :=
  match knowledge with
  | none => none
  | some content => parseBrandCommands content brand

/-! ### Session transport model (paramiko oracle) and the engine -/

/-- The paramiko exception that a transport call raises, keyed by the most
specific class the `except` clauses distinguish:
`AuthenticationException` ⊂ `SSHException` ⊂ `Exception`. -/
inductive Exc where
  | auth (msg : String)
  | ssh (msg : String)
  | other (msg : String)
deriving DecidableEq, Repr

/-- A transport behaviour: what `SSHClient.connect` and `exec_command`
(with both stream reads and decoding) do on this invocation. `exec` returns
the decoded `(stdout, stderr)` pair; decoding itself never raises
(`decode(errors="ignore")`). -/
structure Transport where
  connect : String → Nat → String → String → Except Exc Unit
  exec : String → Except Exc (String × String)

/-- An observable transport side effect of one engine invocation. -/
inductive Event where
  | connectAttempt (host : String) (port : Nat) (username password : String)
  | closeCall
deriving DecidableEq, Repr

/-- How many times `ssh.close()` ran. -/
def closeCount (events : List Event) : Nat :=
  events.countP (fun e => match e with | .closeCall => true | _ => false)

/-- The Python dict `get_device` returns: `dict(zip(columns, row))`, whose
string columns are always present (`NOT NULL` schema); the unused integer
`id` column is left out. -/
def deviceDict (r : DeviceRecord) : List (String × String) :=
  [("host", r.host), ("username", r.username), ("password", r.password), ("brand", r.brand)]

/-- Python `dict.get(key, default)`. -/
def dictGetD (d : List (String × String)) (key dflt : String) : String :=
  match d.find? (fun kv => kv.1 == key) with
  | some kv => kv.2
  | none => dflt

/-- Line 175: `username = username or device_info.get("username", "admin")`. -/
def effUsername (caller : String) (info : List (String × String)) : String :=
  if pyTruthy caller then caller else dictGetD info "username" "admin"

/-- Line 176: `password = password or device_info.get("password", "")`. -/
def effPassword (caller : String) (info : List (String × String)) : String :=
  if pyTruthy caller then caller else dictGetD info "password" ""

/-- The device-not-found reply (identical text in both tools). -/
def notFoundMsg (host : String) : String :=
  "❌ 设备 '" ++ host ++ "' 未在数据库中找到，请先使用 /add_device 添加设备"

/-- The empty-command reply when the brand has suggestions. -/
def suggestMsg (host brand suggestions : String) : String :=
  "设备 " ++ host ++ " 是 " ++ upperStr brand ++ " 品牌，建议使用以下命令：\n" ++ suggestions

/-- The empty-command reply when the brand has no suggestions. -/
def genericMsg (host brand : String) : String :=
  "设备 " ++ host ++ " 品牌未知 (" ++ brand ++ ")，建议使用通用命令：show version, show interfaces, show running-config"

/-- The reply when the remote command produced stderr output. -/
def execBothMsg (result error : String) : String :=
  "命令执行结果:\n" ++ result ++ "\n\n错误信息:\n" ++ error

/-- The brand tag prefixed onto clean output. -/
def brandTag (brand : String) : String := "[设备品牌: " ++ upperStr brand ++ "] "

/-- The three `except` clauses of `SSHCommandTool.forward`, in order. -/
def classifyCmd : Exc → String
  | .auth m => "SSH认证失败: " ++ m ++ "\n建议检查用户名和密码"
  | .ssh m => "SSH连接错误: " ++ m
  | .other m => "连接或执行命令失败: " ++ m

/-- The three `except` clauses of `SSHTestTool.forward`, in order. -/
def classifyTest : Exc → String
  | .auth m => "❌ SSH认证失败: " ++ m ++ "\n\n建议解决方案:\n1. 检查用户名和密码是否正确\n2. 确认设备支持密码认证\n3. 检查用户权限"
  | .ssh m => "❌ SSH连接错误: " ++ m ++ "\n\n可能的原因:\n1. 设备SSH服务未启动\n2. 端口号不正确\n3. 网络连接问题\n4. 防火墙阻止连接"
  | .other m => "❌ 连接测试失败: " ++ m

/-- The fixed head of each classified command-tool reply. -/
def excTag : Exc → String
  | .auth _ => "SSH认证失败: "
  | .ssh _ => "SSH连接错误: "
  | .other _ => "连接或执行命令失败: "

/-- The fixed head of each classified probe reply. -/
def excTestTag : Exc → String
  | .auth _ => "❌ SSH认证失败: "
  | .ssh _ => "❌ SSH连接错误: "
  | .other _ => "❌ 连接测试失败: "

/-- The message the raised exception carried. -/
def excMsg : Exc → String
  | .auth m => m
  | .ssh m => m
  | .other m => m

/-- `SSHTestTool.forward`'s success reply. -/
def testOkMsg (host : String) (port : Nat) (username brand : String) : String :=
  "✅ SSH连接成功！\n\n连接参数: " ++ host ++ ":" ++ toString port ++ " (用户: " ++ username ++ ")\n设备品牌: " ++ upperStr brand ++ "\n使用方式: 参考test3.py的简单连接方法"

/-- `SSHCommandTool.forward(host, username="", password="", command="", port=22)`,
lines 163-211, against registry `db`, knowledge source `knowledge`
(`SM-CLI.md`, `none` when absent) and transport behaviour `tr`. Returns the
reply string and the transport events in order. The source closes the
session (line 197) only between a successful `exec_command`/read and the
stderr check; the `except` clauses return without closing. -/
def sshForward (db : DeviceDB) (knowledge : Option String) (tr : Transport)
    (host username password command : String) (port : Nat) : String × List Event :=
  match getDevice db host with
  | none => (notFoundMsg host, [])
  | some r =>
    let info := deviceDict r
    let username := effUsername username info
    let password := effPassword password info
    let brand := lowerStr (dictGetD info "brand" "Unknown")
    if !pyTruthy command then
      match getBrandCommandsFromPrompt knowledge brand with
      | some s =>
        if pyTruthy s then (suggestMsg host brand s, [])
        else (genericMsg host brand, [])
      | none => (genericMsg host brand, [])
    else
      match tr.connect host port username password with
      | .error e => (classifyCmd e, [.connectAttempt host port username password])
      | .ok _ =>
        match tr.exec command with
        | .error e => (classifyCmd e, [.connectAttempt host port username password])
        | .ok (result, error) =>
          if pyTruthy error then
            (execBothMsg result error,
             [.connectAttempt host port username password, .closeCall])
          else
            (brandTag brand ++ result,
             [.connectAttempt host port username password, .closeCall])

/-- `SSHTestTool.forward(host, username="", password="", port=22)`,
lines 234-283: same registry and credential resolution, connect, close
immediately, never execute; the brand is *not* lower-cased here. -/
def sshTestForward (db : DeviceDB) (tr : Transport)
    (host username password : String) (port : Nat) : String × List Event :=
  match getDevice db host with
  | none => (notFoundMsg host, [])
  | some r =>
    let info := deviceDict r
    let username := effUsername username info
    let password := effPassword password info
    let brand := dictGetD info "brand" "Unknown"
    match tr.connect host port username password with
    | .error e => (classifyTest e, [.connectAttempt host port username password])
    | .ok _ =>
      (testOkMsg host port username brand,
       [.connectAttempt host port username password, .closeCall])

/-! ### Concrete fixtures used by witnesses and counterexamples -/

/-- A small `SM-CLI.md`-style knowledge text with two brand sections. -/
def sampleBrandDoc : String :=
  "#### Cisco设备\n- **命令风格**: IOS\n- **模式切换**: enable\n- **常用命令**: show version, show ip route\n- **配置保存**: write memory\n#### Arista设备\n- **模式切换**: enable"

/-- Registry with one Arista switch. -/
def dbArista : DeviceDB := addDevice [] "sw1" "admin" "pw" "Arista"

/-- Registry with one Cisco router. -/
def dbCisco : DeviceDB := addDevice [] "r1" "admin" "pw" "Cisco"

/-- Registry with one record, stated directly as its row. -/
def dbOne : DeviceDB := [⟨"h1", "admin", "secret", "Cisco"⟩]

/-- Three hosts from the spec's search example, each holding `17`. -/
def db17 : DeviceDB :=
  addDevice (addDevice (addDevice [] "172.1.1.1" "alice" "p1" "Cisco")
    "10.17.0.1" "bob" "p2" "Arista") "172.2.2.2" "carol" "p3" "Juniper"

/-- One record whose username is lower-case `admin`. -/
def dbCaseFold : DeviceDB := [⟨"h1", "admin", "p", "Unknown"⟩]

/-- Transport whose connect and execute both succeed, with clean stdout. -/
def trStub : Transport :=
  ⟨fun _ _ _ _ => .ok (), fun _ => .ok ("Arista vEOS\n", "")⟩

/-- Transport whose connect succeeds and whose execute raises. -/
def trExecRaises : Transport :=
  ⟨fun _ _ _ _ => .ok (), fun _ => .error (.ssh "Channel closed")⟩

/-- Transport whose connect raises an authentication failure. -/
def trAuthFails : Transport :=
  ⟨fun _ _ _ _ => .error (.auth "Bad credentials"), fun _ => .ok ("", "")⟩

/-! ### String lemmas -/

theorem strEq_iff (s t : String) : s = t ↔ s.data = t.data := by
  constructor
  · intro h; rw [h]
  · intro h; cases s; cases t; exact congrArg mkStr h

theorem strData_append (s t : String) : (s ++ t).data = s.data ++ t.data := by
  cases s; cases t; rfl

theorem strAppend_ne_empty (s t : String) (h : s ≠ "") : s ++ t ≠ "" := by
  intro hc
  apply h
  rw [strEq_iff] at hc ⊢
  rw [strData_append] at hc
  exact (List.append_eq_nil.1 hc).1

theorem isPrefixChars_self_append (p t : List Char) : isPrefixChars p (p ++ t) = true := by
  induction p with
  | nil => rfl
  | cons a as ih => simp [isPrefixChars, ih]

theorem isPrefixChars_of_append (p l t : List Char) (h : isPrefixChars p l = true) :
    isPrefixChars p (l ++ t) = true := by
  induction p generalizing l with
  | nil => rfl
  | cons a as ih =>
    cases l with
    | nil => simp [isPrefixChars] at h
    | cons b bs =>
      simp only [isPrefixChars, Bool.and_eq_true] at h ⊢
      exact ⟨h.1, ih bs h.2⟩

theorem startsWithStr_append_left (p s : String) : startsWithStr (p ++ s) p = true := by
  unfold startsWithStr
  rw [strData_append]
  exact isPrefixChars_self_append p.data s.data

theorem startsWithStr_extend (s t p : String) (h : startsWithStr s p = true) :
    startsWithStr (s ++ t) p = true := by
  unfold startsWithStr at *
  rw [strData_append]
  exact isPrefixChars_of_append _ _ _ h

theorem isInfixChars_parts (pre mid suf : List Char) :
    isInfixChars mid (pre ++ (mid ++ suf)) = true := by
  induction pre with
  | nil =>
    cases mid with
    | nil =>
      cases suf with
      | nil => rfl
      | cons c cs => simp [isInfixChars, isPrefixChars]
    | cons m ms =>
      simp only [List.nil_append, List.cons_append, isInfixChars, Bool.or_eq_true]
      exact Or.inl (isPrefixChars_self_append (m :: ms) suf)
  | cons a pre ih =>
    simp only [List.cons_append, isInfixChars, Bool.or_eq_true]
    exact Or.inr ih

theorem isInfixChars_append_right (pre l sub : List Char) (h : isInfixChars sub l = true) :
    isInfixChars sub (pre ++ l) = true := by
  induction pre with
  | nil => exact h
  | cons a pre ih => simp only [List.cons_append, isInfixChars, Bool.or_eq_true]; exact Or.inr ih

theorem containsStr_of_split (s pre mid suf : String) (h : s = pre ++ mid ++ suf) :
    containsStr s mid = true := by
  subst h
  unfold containsStr
  rw [strData_append, strData_append, List.append_assoc]
  exact isInfixChars_parts _ _ _

theorem containsStr_right_append (p s : String) : containsStr (p ++ s) s = true := by
  unfold containsStr
  rw [strData_append]
  have := isInfixChars_parts p.data s.data []
  simpa using this

theorem containsStr_extend_left (s t sub : String) (h : containsStr t sub = true) :
    containsStr (s ++ t) sub = true := by
  unfold containsStr at *
  rw [strData_append]
  exact isInfixChars_append_right _ _ _ h

/-! ### Order and sorting lemmas -/

theorem lexLe_total (a : List Char) : ∀ b : List Char, lexLe a b = true ∨ lexLe b a = true := by
  induction a with
  | nil => intro b; left; rfl
  | cons x xs ih =>
    intro b
    cases b with
    | nil => right; rfl
    | cons y ys =>
      by_cases h1 : x.toNat < y.toNat
      · left; simp [lexLe, h1]
      · by_cases h2 : y.toNat < x.toNat
        · right; simp [lexLe, h2]
        · rcases ih ys with h | h
          · left; simp [lexLe, h1, h2, h]
          · right; simp [lexLe, h1, h2, h]

theorem lexLe_trans (a : List Char) :
    ∀ b c : List Char, lexLe a b = true → lexLe b c = true → lexLe a c = true := by
  induction a with
  | nil => intro b c _ _; rfl
  | cons x xs ih =>
    intro b c hab hbc
    cases b with
    | nil => simp [lexLe] at hab
    | cons y ys =>
      cases c with
      | nil => simp [lexLe] at hbc
      | cons z zs =>
        by_cases h1 : x.toNat < y.toNat
        · by_cases h2 : y.toNat < z.toNat
          · simp [lexLe, show x.toNat < z.toNat by omega]
          · by_cases h3 : z.toNat < y.toNat
            · simp [lexLe, h2, h3] at hbc
            · simp [lexLe, show x.toNat < z.toNat by omega]
        · by_cases h4 : y.toNat < x.toNat
          · simp [lexLe, h1, h4] at hab
          · by_cases h2 : y.toNat < z.toNat
            · simp [lexLe, show x.toNat < z.toNat by omega]
            · by_cases h3 : z.toNat < y.toNat
              · simp [lexLe, h2, h3] at hbc
              · have hx1 : ¬ x.toNat < z.toNat := by omega
                have hx2 : ¬ z.toNat < x.toNat := by omega
                simp only [lexLe, h1, h4, if_neg h1, if_neg h4] at hab
                simp only [lexLe, if_neg h2, if_neg h3] at hbc
                simp only [lexLe, if_neg hx1, if_neg hx2]
                exact ih ys zs hab hbc

theorem hostLeB_total (a b : DeviceRecord) : hostLeB a b = true ∨ hostLeB b a = true :=
  lexLe_total a.host.data b.host.data

theorem hostLeB_trans (a b c : DeviceRecord) (h1 : hostLeB a b = true) (h2 : hostLeB b c = true) :
    hostLeB a c = true :=
  lexLe_trans a.host.data b.host.data c.host.data h1 h2

theorem mem_insertLe {α : Type} (le : α → α → Bool) (a b : α) :
    ∀ l : List α, b ∈ insertLe le a l ↔ b = a ∨ b ∈ l := by
  intro l
  induction l with
  | nil => simp [insertLe]
  | cons c cs ih =>
    simp only [insertLe]
    by_cases h : le a c = true
    · rw [if_pos h]
      simp [List.mem_cons]
    · rw [if_neg h]
      simp only [List.mem_cons, ih]
      tauto

theorem mem_sortLe {α : Type} (le : α → α → Bool) (b : α) :
    ∀ l : List α, b ∈ sortLe le l ↔ b ∈ l := by
  intro l
  induction l with
  | nil => simp [sortLe]
  | cons c cs ih =>
    simp only [sortLe, mem_insertLe, ih, List.mem_cons]

theorem pairwise_insertLe {α : Type} (le : α → α → Bool)
    (htot : ∀ x y, le x y = true ∨ le y x = true)
    (htrans : ∀ x y z, le x y = true → le y z = true → le x z = true)
    (a : α) : ∀ l : List α, l.Pairwise (fun x y => le x y = true) →
      (insertLe le a l).Pairwise (fun x y => le x y = true) := by
  intro l
  induction l with
  | nil => intro _; simp [insertLe]
  | cons b bs ih =>
    intro h
    rcases List.pairwise_cons.1 h with ⟨hb, hbs⟩
    simp only [insertLe]
    by_cases hab : le a b = true
    · rw [if_pos hab]
      refine List.pairwise_cons.2 ⟨?_, h⟩
      intro y hy
      rcases List.mem_cons.1 hy with rfl | hy'
      · exact hab
      · exact htrans a b y hab (hb y hy')
    · rw [if_neg hab]
      have hba : le b a = true := (htot a b).resolve_left hab
      refine List.pairwise_cons.2 ⟨?_, ih hbs⟩
      intro y hy
      rcases (mem_insertLe le a y bs).1 hy with rfl | hy'
      · exact hba
      · exact hb y hy'

theorem pairwise_sortLe {α : Type} (le : α → α → Bool)
    (htot : ∀ x y, le x y = true ∨ le y x = true)
    (htrans : ∀ x y z, le x y = true → le y z = true → le x z = true) :
    ∀ l : List α, (sortLe le l).Pairwise (fun x y => le x y = true) := by
  intro l
  induction l with
  | nil => simp [sortLe]
  | cons c cs ih => exact pairwise_insertLe le htot htrans c _ ih

/-! ### Registry lemmas -/

theorem find?_append_none {α : Type} (p : α → Bool) (l1 l2 : List α)
    (h : ∀ x ∈ l1, p x = false) : (l1 ++ l2).find? p = l2.find? p := by
  induction l1 with
  | nil => rfl
  | cons a l ih =>
    have ha := h a (List.mem_cons_self a l)
    rw [List.cons_append, List.find?]
    rw [ha]
    exact ih (fun x hx => h x (List.mem_cons_of_mem a hx))

theorem getDevice_addDevice_self (db : DeviceDB) (h u p b : String) :
    getDevice (addDevice db h u p b) h = some ⟨h, u, p, b⟩ := by
  unfold getDevice addDevice
  rw [find?_append_none]
  · simp [List.find?]
  · intro x hx
    have hpx := (List.mem_filter.1 hx).2
    simpa using hpx

theorem applyUpdates_host (r : DeviceRecord) (uNew pNew bNew : Option String) :
    (applyUpdates r uNew pNew bNew).host = r.host := rfl

theorem hostsUnique_add (db : DeviceDB) (h u p b : String) (hu : hostsUnique db) :
    hostsUnique (addDevice db h u p b) := by
  unfold hostsUnique addDevice
  rw [List.map_append, List.nodup_append]
  refine ⟨?_, by simp, ?_⟩
  · exact List.Nodup.sublist (List.Sublist.map _ (List.filter_sublist db)) hu
  · intro a ha hb
    simp only [List.map_cons, List.map_nil, List.mem_singleton] at hb
    subst hb
    rcases List.mem_map.1 ha with ⟨x, hx, hxh⟩
    have := (List.mem_filter.1 hx).2
    rw [hxh] at this
    simp at this

theorem hostsUnique_update (db : DeviceDB) (host : String) (uNew pNew bNew : Option String)
    (hu : hostsUnique db) : hostsUnique (updateDevice db host uNew pNew bNew).2 := by
  unfold updateDevice
  split
  · simp only
    unfold hostsUnique
    rw [List.map_map]
    have : ((fun r : DeviceRecord => r.host) ∘
        fun r => if r.host == host then applyUpdates r uNew pNew bNew else r) =
        fun r : DeviceRecord => r.host := by
      funext r
      by_cases hr : (r.host == host) = true
      · simp [Function.comp, hr, applyUpdates_host]
      · simp [Function.comp, hr]
    rw [this]
    exact hu
  · exact hu

theorem hostsUnique_delete (db : DeviceDB) (host : String) (hu : hostsUnique db) :
    hostsUnique (deleteDevice db host).2 := by
  unfold hostsUnique deleteDevice
  exact List.Nodup.sublist (List.Sublist.map _ (List.filter_sublist db)) hu

theorem hostsUnique_applyOps (db : DeviceDB) (ops : List RegOp) (hu : hostsUnique db) :
    hostsUnique (applyOps db ops) := by
  induction ops generalizing db with
  | nil => exact hu
  | cons op rest ih =>
    cases op with
    | add h u p b => exact ih _ (hostsUnique_add db h u p b hu)
    | update h u p b => exact ih _ (hostsUnique_update db h u p b hu)
    | del h => exact ih _ (hostsUnique_delete db h hu)

theorem any_eq_false_of_getDevice_none (db : DeviceDB) (host : String)
    (h : getDevice db host = none) : db.any (fun r => r.host == host) = false := by
  unfold getDevice at h
  rw [List.find?_eq_none] at h
  rw [Bool.eq_false_iff]
  intro hc
  rcases List.any_eq_true.1 hc with ⟨x, hx, hpx⟩
  exact h x hx hpx

theorem find?_mem_and_pred {α : Type} (p : α → Bool) :
    ∀ (l : List α) (a : α), l.find? p = some a → a ∈ l ∧ p a = true := by
  intro l
  induction l with
  | nil => intro a h; cases h
  | cons x xs ih =>
    intro a h
    cases hx : p x with
    | true =>
      simp only [List.find?, hx] at h
      obtain rfl : x = a := by injection h
      exact ⟨List.mem_cons_self x xs, hx⟩
    | false =>
      simp only [List.find?, hx] at h
      rcases ih a h with ⟨hm, hp⟩
      exact ⟨List.mem_cons_of_mem _ hm, hp⟩

theorem any_eq_true_of_getDevice_some (db : DeviceDB) (host : String) (r : DeviceRecord)
    (h : getDevice db host = some r) : db.any (fun r => r.host == host) = true := by
  unfold getDevice at h
  rcases find?_mem_and_pred _ db r h with ⟨hm, hp⟩
  exact List.any_eq_true.2 ⟨r, hm, hp⟩

theorem getDevice_update_self (db : DeviceDB) (host : String) (uNew pNew bNew : Option String) :
    getDevice (db.map (fun r => if r.host == host then applyUpdates r uNew pNew bNew else r)) host
      = (getDevice db host).map (fun r => applyUpdates r uNew pNew bNew) := by
  induction db with
  | nil => rfl
  | cons a db ih =>
    simp only [List.map_cons, getDevice, List.find?]
    by_cases hah : (a.host == host) = true
    · rw [if_pos hah]
      simp only [applyUpdates_host, hah]
      rfl
    · rw [if_neg hah]
      have hf : (a.host == host) = false := by simpa using hah
      simp only [hf]
      exact ih

theorem getDevice_update_other (db : DeviceDB) (host : String) (uNew pNew bNew : Option String)
    (h2 : String) (hne : h2 ≠ host) :
    getDevice (db.map (fun r => if r.host == host then applyUpdates r uNew pNew bNew else r)) h2
      = getDevice db h2 := by
  induction db with
  | nil => rfl
  | cons a db ih =>
    simp only [List.map_cons, getDevice, List.find?]
    by_cases hah : (a.host == host) = true
    · have hhost : a.host = host := by simpa using hah
      have h2f : (a.host == h2) = false := by
        rw [Bool.eq_false_iff]
        intro hc
        have hh2 : host = h2 := by rw [← hhost]; exact eq_of_beq hc
        exact hne hh2.symm
      rw [if_pos hah]
      simp only [applyUpdates_host, h2f]
      exact ih
    · rw [if_neg hah]
      cases ha2 : (a.host == h2) with
      | true => simp only [ha2]
      | false =>
        simp only [ha2]
        exact ih

/-! ### Claim theorems -/

/-- Claim C1: for every host absent from the device registry, `execute`
returns the DeviceNotFound reply immediately with no transport connection
attempt (no events at all), regardless of caller-supplied
username/password; the same holds for `probe`. -/
theorem c1_device_not_found (db : DeviceDB) (knowledge : Option String) (tr : Transport)
    (host username password command : String) (port : Nat)
    (habs : getDevice db host = none) :
    sshForward db knowledge tr host username password command port = (notFoundMsg host, []) ∧
    sshTestForward db tr host username password port = (notFoundMsg host, []) := by
  constructor
  · unfold sshForward
    rw [habs]
  · unfold sshTestForward
    rw [habs]

/-- Claim C1 witness: a concrete unregistered host against an empty
registry, with caller-supplied credentials. -/
theorem c1_device_not_found_witness :
    sshForward [] none trStub "10.0.0.9" "root" "pw" "show version" 22
        = (notFoundMsg "10.0.0.9", []) ∧
    sshTestForward [] trStub "10.0.0.9" "root" "pw" 22 = (notFoundMsg "10.0.0.9", []) :=
  c1_device_not_found [] none trStub "10.0.0.9" "root" "pw" "show version" 22 rfl

/-- Claim C6: `upsert(h,u1,p1,b1)` then `upsert(h,u2,p2,b2)` makes
`lookup(h)` return exactly `(u2,p2,b2)` (last-write-wins), and the
registry keeps at most one record per host after any sequence of
add/update/delete operations. -/
theorem c6_registry_last_write_wins (db : DeviceDB) (h u1 p1 b1 u2 p2 b2 : String)
    (ops : List RegOp) (hu : hostsUnique db) :
    getDevice (addDevice (addDevice db h u1 p1 b1) h u2 p2 b2) h = some ⟨h, u2, p2, b2⟩ ∧
    hostsUnique (applyOps db ops) :=
  ⟨getDevice_addDevice_self _ h u2 p2 b2, hostsUnique_applyOps db ops hu⟩

/-- Claim C6 witness: two upserts of the same host on the empty registry,
then a concrete mixed operation sequence. -/
theorem c6_registry_last_write_wins_witness :
    getDevice (addDevice (addDevice [] "sw1" "u1" "p1" "Cisco") "sw1" "u2" "p2" "Arista") "sw1"
        = some ⟨"sw1", "u2", "p2", "Arista"⟩ ∧
    hostsUnique (applyOps []
      [RegOp.add "a" "u" "p" "Cisco", RegOp.add "a" "v" "q" "Arista",
       RegOp.update "a" (some "w") none none, RegOp.del "a", RegOp.add "b" "u" "p" "H3C"]) :=
  c6_registry_last_write_wins [] "sw1" "u1" "p1" "Cisco" "u2" "p2" "Arista"
    [RegOp.add "a" "u" "p" "Cisco", RegOp.add "a" "v" "q" "Arista",
     RegOp.update "a" (some "w") none none, RegOp.del "a", RegOp.add "b" "u" "p" "H3C"]
    (by simp [hostsUnique])

/-- Claim C8 counterexample: over the spec's own three hosts, every host
contains `"17"` as a substring, so `search("17")` returns three records,
not two; moreover the match is SQLite-LIKE case-insensitive, so
`search("ADMIN")` hits username `admin` although `ADMIN` is not a
substring of it. -/
theorem c8_search_ordering_cex :
    (searchDevices db17 "17").map (fun r => r.host) = ["10.17.0.1", "172.1.1.1", "172.2.2.2"] ∧
    (searchDevices db17 "17").length ≠ 2 ∧
    searchDevices dbCaseFold "ADMIN" = [⟨"h1", "admin", "p", "Unknown"⟩] ∧
    containsStr "admin" "ADMIN" = false := by
  refine ⟨by decide, by decide, by decide, by decide⟩

/-- Claim C8 (amended): `search(keyword)` returns exactly the records whose
host or username contains the keyword as a substring under SQLite LIKE's
ASCII-case-insensitive matching, ordered ascending by host; in particular
`search("17")` over hosts `172.1.1.1`, `10.17.0.1`, `172.2.2.2` returns
all three hosts in ascending host order. -/
theorem c8_search_characterization (db : DeviceDB) (keyword : String) (r : DeviceRecord) :
    (r ∈ searchDevices db keyword ↔
      r ∈ db ∧ (sqlLike r.host keyword = true ∨ sqlLike r.username keyword = true)) ∧
    (searchDevices db keyword).Pairwise (fun a b => hostLeB a b = true) ∧
    (searchDevices db17 "17").map (fun x => x.host) = ["10.17.0.1", "172.1.1.1", "172.2.2.2"] := by
  refine ⟨?_, ?_, by decide⟩
  · unfold searchDevices
    rw [mem_sortLe, List.mem_filter]
    simp [Bool.or_eq_true]
  · exact pairwise_sortLe hostLeB hostLeB_total hostLeB_trans _

/-- Claim C9: `update(host, fields...)` returns false when the host is
absent or no (truthy) field is given; on success only the truthy supplied
fields are applied, every other field and every other record is left
unchanged. -/
theorem c9_partial_update (db : DeviceDB) (host : String) (uNew pNew bNew : Option String)
    (r : DeviceRecord) :
    (getDevice db host = none → (updateDevice db host uNew pNew bNew).1 = false) ∧
    ((optTruthy uNew || optTruthy pNew || optTruthy bNew) = false →
      updateDevice db host uNew pNew bNew = (false, db)) ∧
    (getDevice db host = some r →
      (optTruthy uNew || optTruthy pNew || optTruthy bNew) = true →
      (updateDevice db host uNew pNew bNew).1 = true ∧
      getDevice (updateDevice db host uNew pNew bNew).2 host
          = some (applyUpdates r uNew pNew bNew) ∧
      (applyUpdates r uNew pNew bNew).host = r.host ∧
      (optTruthy uNew = false → (applyUpdates r uNew pNew bNew).username = r.username) ∧
      (optTruthy pNew = false → (applyUpdates r uNew pNew bNew).password = r.password) ∧
      (optTruthy bNew = false → (applyUpdates r uNew pNew bNew).brand = r.brand) ∧
      (∀ h2 : String, h2 ≠ host →
        getDevice (updateDevice db host uNew pNew bNew).2 h2 = getDevice db h2)) := by
  refine ⟨?_, ?_, ?_⟩
  · intro hnone
    by_cases hb : (optTruthy uNew || optTruthy pNew || optTruthy bNew) = true
    · simp only [updateDevice, if_pos hb]
      exact any_eq_false_of_getDevice_none db host hnone
    · simp only [updateDevice, if_neg hb]
  · intro hfields
    rw [Bool.eq_false_iff] at hfields
    simp only [updateDevice, if_neg hfields]
  · intro hsome hfields
    refine ⟨?_, ?_, rfl, ?_, ?_, ?_, ?_⟩
    · simp only [updateDevice, if_pos hfields]
      exact any_eq_true_of_getDevice_some db host r hsome
    · simp only [updateDevice, if_pos hfields]
      rw [getDevice_update_self, hsome]
      rfl
    · intro hf; simp [applyUpdates, hf]
    · intro hf; simp [applyUpdates, hf]
    · intro hf; simp [applyUpdates, hf]
    · intro h2 hne
      simp only [updateDevice, if_pos hfields]
      exact getDevice_update_other db host uNew pNew bNew h2 hne

/-- Claim C2 counterexample: a transport whose connect succeeds and whose
`exec_command` raises; the engine returns (a classified error) without ever
invoking `close` — the claim's "close is invoked exactly once on every exit
path" fails on the post-connect failure path. -/
theorem c2_close_cex :
    trExecRaises.connect "h1" 22 "admin" "secret" = Except.ok () ∧
    closeCount (sshForward dbOne none trExecRaises "h1" "" "" "show version" 22).2 = 0 := by
  exact ⟨rfl, by decide⟩

/-- Claim C2 (amended): when connect succeeds, `close` is invoked exactly
once if the command execution returns normally (on both the clean and the
stderr path), and zero times if the command execution raises — the source
has no `finally`, so the session leaks on that path. -/
theorem c2_close_exactly_on_success (db : DeviceDB) (knowledge : Option String)
    (tr : Transport) (host username password command : String) (port : Nat) (r : DeviceRecord)
    (hdev : getDevice db host = some r) (hcmd : pyTruthy command = true)
    (hconn : tr.connect host port (effUsername username (deviceDict r))
        (effPassword password (deviceDict r)) = Except.ok ()) :
    closeCount (sshForward db knowledge tr host username password command port).2 =
      (match tr.exec command with
       | .ok _ => 1
       | .error _ => 0) := by
  unfold sshForward
  rw [hdev]
  simp only [hcmd, Bool.not_true, Bool.false_eq_true, if_false]
  rw [hconn]
  rcases hexec : tr.exec command with e | ⟨out, err⟩
  · simp [closeCount]
  · by_cases herr : pyTruthy err = true
    · simp only [if_pos herr]
      simp [closeCount]
    · simp only [if_neg herr]
      simp [closeCount]

/-- Claim C2 witness for the amended theorem: a concrete successful
execution closes the session exactly once. -/
theorem c2_close_exactly_on_success_witness :
    closeCount (sshForward dbOne none trStub "h1" "" "" "show version" 22).2 =
      (match trStub.exec "show version" with
       | .ok _ => 1
       | .error _ => 0) :=
  c2_close_exactly_on_success dbOne none trStub "h1" "" "" "show version" 22
    ⟨"h1", "admin", "secret", "Cisco"⟩ rfl rfl rfl

/-- Claim C3: for a registered host, both tools hand the transport exactly
the resolved credentials — the caller-supplied value when nonempty, else
the registry record's value; the `dict.get` defaults (`"admin"` and `""`)
apply only to a dict without those keys, which the registry schema never
produces. -/
theorem c3_credential_resolution (db : DeviceDB) (knowledge : Option String)
    (tr : Transport) (host username password command : String) (port : Nat) (r : DeviceRecord)
    (hdev : getDevice db host = some r) (hcmd : pyTruthy command = true) :
    (∃ rest, (sshForward db knowledge tr host username password command port).2 =
        Event.connectAttempt host port (effUsername username (deviceDict r))
          (effPassword password (deviceDict r)) :: rest) ∧
    (∃ rest, (sshTestForward db tr host username password port).2 =
        Event.connectAttempt host port (effUsername username (deviceDict r))
          (effPassword password (deviceDict r)) :: rest) ∧
    (pyTruthy username = true → effUsername username (deviceDict r) = username) ∧
    (pyTruthy username = false → effUsername username (deviceDict r) = r.username) ∧
    (pyTruthy password = true → effPassword password (deviceDict r) = password) ∧
    (pyTruthy password = false → effPassword password (deviceDict r) = r.password) ∧
    effUsername "" [] = "admin" ∧ effPassword "" [] = "" := by
  refine ⟨?_, ?_, ?_, ?_, ?_, ?_, rfl, rfl⟩
  · unfold sshForward
    rw [hdev]
    simp only [hcmd, Bool.not_true, Bool.false_eq_true, if_false]
    rcases hconn : tr.connect host port (effUsername username (deviceDict r))
        (effPassword password (deviceDict r)) with e | u
    · exact ⟨[], rfl⟩
    · rcases hexec : tr.exec command with e | ⟨out, err⟩
      · exact ⟨[], rfl⟩
      · by_cases herr : pyTruthy err = true
        · simp only [if_pos herr]
          exact ⟨[Event.closeCall], rfl⟩
        · simp only [if_neg herr]
          exact ⟨[Event.closeCall], rfl⟩
  · unfold sshTestForward
    rw [hdev]
    dsimp only
    rcases hconn : tr.connect host port (effUsername username (deviceDict r))
        (effPassword password (deviceDict r)) with e | u
    · exact ⟨[], rfl⟩
    · exact ⟨[Event.closeCall], rfl⟩
  · intro ht; simp [effUsername, ht]
  · intro ht; simp only [effUsername, ht, Bool.false_eq_true, if_false]; rfl
  · intro ht; simp [effPassword, ht]
  · intro ht; simp only [effPassword, ht, Bool.false_eq_true, if_false]; rfl

/-- Claim C3 witness: empty caller credentials resolve to the registry's
`admin`/`secret`; the remaining conjuncts at the same concrete input. -/
theorem c3_credential_resolution_witness :
    (∃ rest, (sshForward dbOne none trStub "h1" "" "" "show version" 22).2 =
        Event.connectAttempt "h1" 22
          (effUsername "" (deviceDict ⟨"h1", "admin", "secret", "Cisco"⟩))
          (effPassword "" (deviceDict ⟨"h1", "admin", "secret", "Cisco"⟩)) :: rest) ∧
    (∃ rest, (sshTestForward dbOne trStub "h1" "" "" 22).2 =
        Event.connectAttempt "h1" 22
          (effUsername "" (deviceDict ⟨"h1", "admin", "secret", "Cisco"⟩))
          (effPassword "" (deviceDict ⟨"h1", "admin", "secret", "Cisco"⟩)) :: rest) ∧
    (pyTruthy "" = true → effUsername "" (deviceDict ⟨"h1", "admin", "secret", "Cisco"⟩) = "") ∧
    (pyTruthy "" = false →
      effUsername "" (deviceDict ⟨"h1", "admin", "secret", "Cisco"⟩)
        = (⟨"h1", "admin", "secret", "Cisco"⟩ : DeviceRecord).username) ∧
    (pyTruthy "" = true → effPassword "" (deviceDict ⟨"h1", "admin", "secret", "Cisco"⟩) = "") ∧
    (pyTruthy "" = false →
      effPassword "" (deviceDict ⟨"h1", "admin", "secret", "Cisco"⟩)
        = (⟨"h1", "admin", "secret", "Cisco"⟩ : DeviceRecord).password) ∧
    effUsername "" [] = "admin" ∧ effPassword "" [] = "" :=
  c3_credential_resolution dbOne none trStub "h1" "" "" "show version" 22
    ⟨"h1", "admin", "secret", "Cisco"⟩ rfl rfl

/-! ### Message-shape lemmas -/

theorem notFoundMsg_ne (host : String) : notFoundMsg host ≠ "" := by
  unfold notFoundMsg
  repeat apply strAppend_ne_empty
  decide

theorem suggestMsg_ne (host brand s : String) : suggestMsg host brand s ≠ "" := by
  unfold suggestMsg
  repeat apply strAppend_ne_empty
  decide

theorem genericMsg_ne (host brand : String) : genericMsg host brand ≠ "" := by
  unfold genericMsg
  repeat apply strAppend_ne_empty
  decide

theorem execBothMsg_ne (result error : String) : execBothMsg result error ≠ "" := by
  unfold execBothMsg
  repeat apply strAppend_ne_empty
  decide

theorem brandTagged_ne (brand out : String) : brandTag brand ++ out ≠ "" := by
  unfold brandTag
  repeat apply strAppend_ne_empty
  decide

theorem testOkMsg_ne (host : String) (port : Nat) (username brand : String) :
    testOkMsg host port username brand ≠ "" := by
  unfold testOkMsg
  repeat apply strAppend_ne_empty
  decide

theorem classifyCmd_ne (e : Exc) : classifyCmd e ≠ "" := by
  cases e with
  | auth m =>
    show ("SSH认证失败: " ++ m) ++ "\n建议检查用户名和密码" ≠ ""
    repeat apply strAppend_ne_empty
    decide
  | ssh m =>
    show "SSH连接错误: " ++ m ≠ ""
    repeat apply strAppend_ne_empty
    decide
  | other m =>
    show "连接或执行命令失败: " ++ m ≠ ""
    repeat apply strAppend_ne_empty
    decide

theorem classifyTest_ne (e : Exc) : classifyTest e ≠ "" := by
  cases e with
  | auth m =>
    show ("❌ SSH认证失败: " ++ m) ++ "\n\n建议解决方案:\n1. 检查用户名和密码是否正确\n2. 确认设备支持密码认证\n3. 检查用户权限" ≠ ""
    repeat apply strAppend_ne_empty
    decide
  | ssh m =>
    show ("❌ SSH连接错误: " ++ m) ++ "\n\n可能的原因:\n1. 设备SSH服务未启动\n2. 端口号不正确\n3. 网络连接问题\n4. 防火墙阻止连接" ≠ ""
    repeat apply strAppend_ne_empty
    decide
  | other m =>
    show "❌ 连接测试失败: " ++ m ≠ ""
    repeat apply strAppend_ne_empty
    decide

theorem classifyCmd_startsWith (e : Exc) : startsWithStr (classifyCmd e) (excTag e) = true := by
  cases e with
  | auth m => exact startsWithStr_extend _ _ _ (startsWithStr_append_left _ _)
  | ssh m => exact startsWithStr_append_left _ _
  | other m => exact startsWithStr_append_left _ _

theorem classifyTest_startsWith (e : Exc) : startsWithStr (classifyTest e) (excTestTag e) = true := by
  cases e with
  | auth m => exact startsWithStr_extend _ _ _ (startsWithStr_append_left _ _)
  | ssh m => exact startsWithStr_extend _ _ _ (startsWithStr_append_left _ _)
  | other m => exact startsWithStr_append_left _ _

theorem classifyCmd_contains_msg (e : Exc) : containsStr (classifyCmd e) (excMsg e) = true := by
  cases e with
  | auth m => exact containsStr_of_split _ "SSH认证失败: " m "\n建议检查用户名和密码" rfl
  | ssh m => exact containsStr_right_append _ _
  | other m => exact containsStr_right_append _ _

theorem classifyTest_contains_msg (e : Exc) : containsStr (classifyTest e) (excMsg e) = true := by
  cases e with
  | auth m =>
    exact containsStr_of_split _ "❌ SSH认证失败: " m
      "\n\n建议解决方案:\n1. 检查用户名和密码是否正确\n2. 确认设备支持密码认证\n3. 检查用户权限" rfl
  | ssh m =>
    exact containsStr_of_split _ "❌ SSH连接错误: " m
      "\n\n可能的原因:\n1. 设备SSH服务未启动\n2. 端口号不正确\n3. 网络连接问题\n4. 防火墙阻止连接" rfl
  | other m => exact containsStr_right_append _ _

theorem isPrefixChars_of_common {p q s : List Char} (hp : isPrefixChars p s = true)
    (hq : isPrefixChars q s = true) (hl : p.length ≤ q.length) : isPrefixChars p q = true := by
  induction p generalizing q s with
  | nil => rfl
  | cons a as ih =>
    cases q with
    | nil => simp at hl
    | cons b bs =>
      cases s with
      | nil => simp [isPrefixChars] at hp
      | cons c cs =>
        simp only [isPrefixChars, Bool.and_eq_true] at hp hq ⊢
        have hac : a = c := eq_of_beq hp.1
        have hbc : b = c := eq_of_beq hq.1
        refine ⟨beq_of_eq (hac.trans hbc.symm), ?_⟩
        exact ih hp.2 hq.2 (by simpa using hl)

theorem startsWith_common {s p q : String} (hp : startsWithStr s p = true)
    (hq : startsWithStr s q = true) (hl : p.data.length ≤ q.data.length) :
    isPrefixChars p.data q.data = true :=
  isPrefixChars_of_common hp hq hl

theorem classifyCmd_auth_ne_ssh (m1 m2 : String) :
    classifyCmd (Exc.auth m1) ≠ classifyCmd (Exc.ssh m2) := by
  intro h
  have h1 : startsWithStr (classifyCmd (Exc.ssh m2)) "SSH认证失败: " = true :=
    h ▸ classifyCmd_startsWith (Exc.auth m1)
  have h2 : startsWithStr (classifyCmd (Exc.ssh m2)) "SSH连接错误: " = true :=
    classifyCmd_startsWith (Exc.ssh m2)
  have h3 : isPrefixChars ("SSH认证失败: " : String).data ("SSH连接错误: " : String).data = true :=
    startsWith_common h1 h2 (by decide)
  exact absurd h3 (by decide)

theorem classifyCmd_auth_ne_other (m1 m2 : String) :
    classifyCmd (Exc.auth m1) ≠ classifyCmd (Exc.other m2) := by
  intro h
  have h1 : startsWithStr (classifyCmd (Exc.other m2)) "SSH认证失败: " = true :=
    h ▸ classifyCmd_startsWith (Exc.auth m1)
  have h2 : startsWithStr (classifyCmd (Exc.other m2)) "连接或执行命令失败: " = true :=
    classifyCmd_startsWith (Exc.other m2)
  have h3 : isPrefixChars ("SSH认证失败: " : String).data ("连接或执行命令失败: " : String).data = true :=
    startsWith_common h1 h2 (by decide)
  exact absurd h3 (by decide)

theorem classifyCmd_ssh_ne_other (m1 m2 : String) :
    classifyCmd (Exc.ssh m1) ≠ classifyCmd (Exc.other m2) := by
  intro h
  have h1 : startsWithStr (classifyCmd (Exc.other m2)) "SSH连接错误: " = true :=
    h ▸ classifyCmd_startsWith (Exc.ssh m1)
  have h2 : startsWithStr (classifyCmd (Exc.other m2)) "连接或执行命令失败: " = true :=
    classifyCmd_startsWith (Exc.other m2)
  have h3 : isPrefixChars ("SSH连接错误: " : String).data ("连接或执行命令失败: " : String).data = true :=
    startsWith_common h1 h2 (by decide)
  exact absurd h3 (by decide)

/-- Claim C4: every connection/execution failure is classified into exactly
one of AuthenticationFailed, TransportError or Unknown (the three `except`
clauses), each reply carries its head tag and the raised message, the three
classified replies can never coincide, and the engine always returns a
nonempty result string — no transport exception escapes. -/
theorem c4_error_classification (db : DeviceDB) (knowledge : Option String)
    (tr : Transport) (host username password command : String) (port : Nat)
    (r : DeviceRecord) (e : Exc)
    (hdev : getDevice db host = some r) (hcmd : pyTruthy command = true) :
    ((sshForward db knowledge tr host username password command port).1 ≠ "") ∧
    ((sshTestForward db tr host username password port).1 ≠ "") ∧
    (startsWithStr (classifyCmd e) (excTag e) = true) ∧
    (containsStr (classifyCmd e) (excMsg e) = true) ∧
    (startsWithStr (classifyTest e) (excTestTag e) = true) ∧
    (containsStr (classifyTest e) (excMsg e) = true) ∧
    (∀ m1 m2 : String, classifyCmd (Exc.auth m1) ≠ classifyCmd (Exc.ssh m2)) ∧
    (∀ m1 m2 : String, classifyCmd (Exc.auth m1) ≠ classifyCmd (Exc.other m2)) ∧
    (∀ m1 m2 : String, classifyCmd (Exc.ssh m1) ≠ classifyCmd (Exc.other m2)) ∧
    (tr.connect host port (effUsername username (deviceDict r))
        (effPassword password (deviceDict r)) = Except.error e →
      (sshForward db knowledge tr host username password command port).1 = classifyCmd e ∧
      (sshTestForward db tr host username password port).1 = classifyTest e) ∧
    (tr.connect host port (effUsername username (deviceDict r))
        (effPassword password (deviceDict r)) = Except.ok () →
      tr.exec command = Except.error e →
      (sshForward db knowledge tr host username password command port).1 = classifyCmd e) := by
  refine ⟨?_, ?_, classifyCmd_startsWith e, classifyCmd_contains_msg e,
    classifyTest_startsWith e, classifyTest_contains_msg e,
    classifyCmd_auth_ne_ssh, classifyCmd_auth_ne_other, classifyCmd_ssh_ne_other, ?_, ?_⟩
  · unfold sshForward
    rw [hdev]
    dsimp only
    simp only [hcmd, Bool.not_true, Bool.false_eq_true, if_false]
    rcases tr.connect host port (effUsername username (deviceDict r))
        (effPassword password (deviceDict r)) with e' | u
    · exact classifyCmd_ne e'
    · rcases tr.exec command with e' | ⟨out, err⟩
      · exact classifyCmd_ne e'
      · by_cases herr : pyTruthy err = true
        · simp only [if_pos herr]
          exact execBothMsg_ne out err
        · simp only [if_neg herr]
          exact brandTagged_ne _ out
  · unfold sshTestForward
    rw [hdev]
    dsimp only
    rcases tr.connect host port (effUsername username (deviceDict r))
        (effPassword password (deviceDict r)) with e' | u
    · exact classifyTest_ne e'
    · exact testOkMsg_ne host port _ _
  · intro hconn
    constructor
    · unfold sshForward
      rw [hdev]
      dsimp only
      rw [hconn]
      simp only [hcmd, Bool.not_true, Bool.false_eq_true, if_false]
    · unfold sshTestForward
      rw [hdev]
      dsimp only
      rw [hconn]
  · intro hconn hexec
    unfold sshForward
    rw [hdev]
    dsimp only
    rw [hconn, hexec]
    simp only [hcmd, Bool.not_true, Bool.false_eq_true, if_false]

/-- Claim C4 witness: a concrete authentication failure is classified as
the AuthenticationFailed reply; the nonemptiness, tagging and distinctness
conjuncts at the same concrete input. -/
theorem c4_error_classification_witness :
    ((sshForward dbOne none trAuthFails "h1" "" "" "show version" 22).1 ≠ "") ∧
    ((sshTestForward dbOne trAuthFails "h1" "" "" 22).1 ≠ "") ∧
    (startsWithStr (classifyCmd (Exc.auth "Bad credentials"))
        (excTag (Exc.auth "Bad credentials")) = true) ∧
    (containsStr (classifyCmd (Exc.auth "Bad credentials"))
        (excMsg (Exc.auth "Bad credentials")) = true) ∧
    (startsWithStr (classifyTest (Exc.auth "Bad credentials"))
        (excTestTag (Exc.auth "Bad credentials")) = true) ∧
    (containsStr (classifyTest (Exc.auth "Bad credentials"))
        (excMsg (Exc.auth "Bad credentials")) = true) ∧
    (∀ m1 m2 : String, classifyCmd (Exc.auth m1) ≠ classifyCmd (Exc.ssh m2)) ∧
    (∀ m1 m2 : String, classifyCmd (Exc.auth m1) ≠ classifyCmd (Exc.other m2)) ∧
    (∀ m1 m2 : String, classifyCmd (Exc.ssh m1) ≠ classifyCmd (Exc.other m2)) ∧
    (trAuthFails.connect "h1" 22
        (effUsername "" (deviceDict ⟨"h1", "admin", "secret", "Cisco"⟩))
        (effPassword "" (deviceDict ⟨"h1", "admin", "secret", "Cisco"⟩))
          = Except.error (Exc.auth "Bad credentials") →
      (sshForward dbOne none trAuthFails "h1" "" "" "show version" 22).1
          = classifyCmd (Exc.auth "Bad credentials") ∧
      (sshTestForward dbOne trAuthFails "h1" "" "" 22).1
          = classifyTest (Exc.auth "Bad credentials")) ∧
    (trAuthFails.connect "h1" 22
        (effUsername "" (deviceDict ⟨"h1", "admin", "secret", "Cisco"⟩))
        (effPassword "" (deviceDict ⟨"h1", "admin", "secret", "Cisco"⟩)) = Except.ok () →
      trAuthFails.exec "show version" = Except.error (Exc.auth "Bad credentials") →
      (sshForward dbOne none trAuthFails "h1" "" "" "show version" 22).1
          = classifyCmd (Exc.auth "Bad credentials")) :=
  c4_error_classification dbOne none trAuthFails "h1" "" "" "show version" 22
    ⟨"h1", "admin", "secret", "Cisco"⟩ (Exc.auth "Bad credentials") rfl rfl

/-- The generic fallback suggestion lists the three common commands. -/
theorem genericMsg_contains_common (host brand : String) :
    containsStr (genericMsg host brand)
      "show version, show interfaces, show running-config" = true :=
  containsStr_extend_left _ _ _ (by decide)

/-- Claim C5: on a successful execution, any stderr output makes the engine
return both streams concatenated (stderr not fatal); with empty stderr the
output is prefixed by the bracketed brand tag holding the upper-cased
resolved brand — e.g. the tag for brand `Arista` contains `ARISTA`. -/
theorem c5_output_streams_and_brand_tag (db : DeviceDB) (knowledge : Option String)
    (tr : Transport) (host username password command : String) (port : Nat)
    (r : DeviceRecord) (out err : String)
    (hdev : getDevice db host = some r) (hcmd : pyTruthy command = true)
    (hconn : tr.connect host port (effUsername username (deviceDict r))
        (effPassword password (deviceDict r)) = Except.ok ())
    (hexec : tr.exec command = Except.ok (out, err)) :
    (pyTruthy err = true →
      (sshForward db knowledge tr host username password command port).1 = execBothMsg out err ∧
      containsStr (execBothMsg out err) out = true ∧
      containsStr (execBothMsg out err) err = true) ∧
    (err = "" →
      (sshForward db knowledge tr host username password command port).1
          = brandTag (lowerStr r.brand) ++ out ∧
      startsWithStr (brandTag (lowerStr r.brand) ++ out) "[" = true ∧
      containsStr (brandTag (lowerStr r.brand)) (upperStr (lowerStr r.brand)) = true ∧
      containsStr (brandTag (lowerStr r.brand)) "]" = true ∧
      brandTag (lowerStr r.brand) = "[设备品牌: " ++ upperStr (lowerStr r.brand) ++ "] ") ∧
    upperStr (lowerStr "Arista") = "ARISTA" := by
  refine ⟨?_, ?_, by decide⟩
  · intro herr
    refine ⟨?_, ?_, ?_⟩
    · unfold sshForward
      rw [hdev]
      dsimp only
      simp only [hcmd, Bool.not_true, Bool.false_eq_true, if_false]
      rw [hconn, hexec]
      dsimp only
      rw [if_pos herr]
    · refine containsStr_of_split _ "命令执行结果:\n" out ("\n\n错误信息:\n" ++ err) ?_
      rw [strEq_iff]
      simp [execBothMsg, strData_append, List.append_assoc]
    · exact containsStr_right_append _ err
  · intro herr
    subst herr
    refine ⟨?_, ?_, ?_, ?_, rfl⟩
    · unfold sshForward
      rw [hdev]
      dsimp only
      simp only [hcmd, Bool.not_true, Bool.false_eq_true, if_false]
      rw [hconn, hexec]
      dsimp only
      rw [if_neg (by decide : ¬ pyTruthy "" = true)]
      rfl
    · have t1 : startsWithStr ("[设备品牌: " : String) "[" = true := by decide
      have t2 := startsWithStr_extend _ (upperStr (lowerStr r.brand)) _ t1
      have t3 := startsWithStr_extend _ "] " _ t2
      exact startsWithStr_extend _ out _ t3
    · exact containsStr_of_split _ "[设备品牌: " (upperStr (lowerStr r.brand)) "] " rfl
    · exact containsStr_extend_left _ "] " "]" (by decide)

/-- Claim C5 witness: the stub transport's clean `Arista vEOS` output gets
the `ARISTA` brand tag. -/
theorem c5_output_streams_and_brand_tag_witness :
    (pyTruthy "" = true →
      (sshForward dbArista none trStub "sw1" "" "" "show version" 22).1
          = execBothMsg "Arista vEOS\n" "" ∧
      containsStr (execBothMsg "Arista vEOS\n" "") "Arista vEOS\n" = true ∧
      containsStr (execBothMsg "Arista vEOS\n" "") "" = true) ∧
    ("" = "" →
      (sshForward dbArista none trStub "sw1" "" "" "show version" 22).1
          = brandTag (lowerStr "Arista") ++ "Arista vEOS\n" ∧
      startsWithStr (brandTag (lowerStr "Arista") ++ "Arista vEOS\n") "[" = true ∧
      containsStr (brandTag (lowerStr "Arista")) (upperStr (lowerStr "Arista")) = true ∧
      containsStr (brandTag (lowerStr "Arista")) "]" = true ∧
      brandTag (lowerStr "Arista") = "[设备品牌: " ++ upperStr (lowerStr "Arista") ++ "] ") ∧
    upperStr (lowerStr "Arista") = "ARISTA" :=
  c5_output_streams_and_brand_tag dbArista none trStub "sw1" "" "" "show version" 22
    ⟨"sw1", "admin", "pw", "Arista"⟩ "Arista vEOS\n" "" rfl rfl rfl rfl

/-- Claim C7: for a registered host whose (lower-cased) brand resolves to a
truthy suggestion string, `execute` with an empty command returns the
suggestion outcome built from it — with no transport event — and the brand
profile resolver is case-insensitive in the brand name. -/
theorem c7_empty_command_suggestion (db : DeviceDB) (knowledge : Option String)
    (tr : Transport) (host username password : String) (port : Nat)
    (r : DeviceRecord) (s : String)
    (hdev : getDevice db host = some r)
    (hres : getBrandCommandsFromPrompt knowledge (lowerStr r.brand) = some s)
    (hs : pyTruthy s = true) :
    sshForward db knowledge tr host username password "" port
        = (suggestMsg host (lowerStr r.brand) s, []) ∧
    suggestMsg host (lowerStr r.brand) s ≠ "" ∧
    (∀ content b1 b2 : String, lowerStr b1 = lowerStr b2 →
      parseBrandCommands content b1 = parseBrandCommands content b2) := by
  refine ⟨?_, suggestMsg_ne _ _ _, ?_⟩
  · unfold sshForward
    rw [hdev]
    dsimp only
    rw [if_pos (by decide : (!pyTruthy "") = true)]
    rw [show lowerStr (dictGetD (deviceDict r) "brand" "Unknown") = lowerStr r.brand from rfl]
    rw [hres]
    dsimp only
    rw [if_pos hs]
  · intro content b1 b2 hb
    unfold parseBrandCommands
    rw [hb]

/-- Claim C7 witness: the Cisco section of the sample knowledge text yields
a concrete suggestion reply and an empty event trace. -/
theorem c7_empty_command_suggestion_witness :
    sshForward dbCisco (some sampleBrandDoc) trStub "r1" "" "" "" 22
        = (suggestMsg "r1" (lowerStr "Cisco")
            "模式切换: enable\n常用命令:\n  - show version\n  - show ip route\n配置保存: write memory", []) ∧
    suggestMsg "r1" (lowerStr "Cisco")
        "模式切换: enable\n常用命令:\n  - show version\n  - show ip route\n配置保存: write memory" ≠ "" ∧
    (∀ content b1 b2 : String, lowerStr b1 = lowerStr b2 →
      parseBrandCommands content b1 = parseBrandCommands content b2) :=
  c7_empty_command_suggestion dbCisco (some sampleBrandDoc) trStub "r1" "" "" 22
    ⟨"r1", "admin", "pw", "Cisco"⟩
    "模式切换: enable\n常用命令:\n  - show version\n  - show ip route\n配置保存: write memory"
    rfl (by decide) (by decide)

/-- Claim C10: for every registered host, `execute` with an empty command is
total and never an error outcome: it performs no transport event, returns a
nonempty string that is either the brand suggestion or the generic
fallback, falls back to the generic suggestion whenever the resolver
returns `None` (unknown brand, missing or unparsable knowledge file), and
the generic fallback lists the common commands. -/
theorem c10_empty_command_total (db : DeviceDB) (knowledge : Option String)
    (tr : Transport) (host username password : String) (port : Nat) (r : DeviceRecord)
    (hdev : getDevice db host = some r) :
    (sshForward db knowledge tr host username password "" port).2 = [] ∧
    (sshForward db knowledge tr host username password "" port).1 ≠ "" ∧
    ((∃ s, getBrandCommandsFromPrompt knowledge (lowerStr r.brand) = some s ∧
        pyTruthy s = true ∧
        (sshForward db knowledge tr host username password "" port).1
          = suggestMsg host (lowerStr r.brand) s) ∨
      (sshForward db knowledge tr host username password "" port).1
        = genericMsg host (lowerStr r.brand)) ∧
    (getBrandCommandsFromPrompt knowledge (lowerStr r.brand) = none →
      (sshForward db knowledge tr host username password "" port).1
        = genericMsg host (lowerStr r.brand)) ∧
    containsStr (genericMsg host (lowerStr r.brand))
      "show version, show interfaces, show running-config" = true := by
  have key : sshForward db knowledge tr host username password "" port
      = (match getBrandCommandsFromPrompt knowledge (lowerStr r.brand) with
         | some s =>
           if pyTruthy s then (suggestMsg host (lowerStr r.brand) s, [])
           else (genericMsg host (lowerStr r.brand), [])
         | none => (genericMsg host (lowerStr r.brand), [])) := by
    unfold sshForward
    rw [hdev]
    dsimp only
    rw [if_pos (by decide : (!pyTruthy "") = true)]
    rfl
  rw [key]
  rcases hres : getBrandCommandsFromPrompt knowledge (lowerStr r.brand) with _ | s
  · exact ⟨rfl, genericMsg_ne _ _, Or.inr rfl, fun _ => rfl, genericMsg_contains_common _ _⟩
  · dsimp only
    by_cases hts : pyTruthy s = true
    · rw [if_pos hts]
      refine ⟨rfl, suggestMsg_ne _ _ _, Or.inl ⟨s, rfl, hts, rfl⟩, ?_,
        genericMsg_contains_common _ _⟩
      intro h
      cases h
    · rw [if_neg hts]
      exact ⟨rfl, genericMsg_ne _ _, Or.inr rfl, fun _ => rfl, genericMsg_contains_common _ _⟩

/-- Claim C10 witness: a registered host with no knowledge file (`SM-CLI.md`
missing, resolver `None`) still gets the nonempty generic suggestion and no
transport event. -/
theorem c10_empty_command_total_witness :
    (sshForward dbArista none trStub "sw1" "" "" "" 22).2 = [] ∧
    (sshForward dbArista none trStub "sw1" "" "" "" 22).1 ≠ "" ∧
    ((∃ s, getBrandCommandsFromPrompt none (lowerStr "Arista") = some s ∧
        pyTruthy s = true ∧
        (sshForward dbArista none trStub "sw1" "" "" "" 22).1
          = suggestMsg "sw1" (lowerStr "Arista") s) ∨
      (sshForward dbArista none trStub "sw1" "" "" "" 22).1
        = genericMsg "sw1" (lowerStr "Arista")) ∧
    (getBrandCommandsFromPrompt none (lowerStr "Arista") = none →
      (sshForward dbArista none trStub "sw1" "" "" "" 22).1
        = genericMsg "sw1" (lowerStr "Arista")) ∧
    containsStr (genericMsg "sw1" (lowerStr "Arista"))
      "show version, show interfaces, show running-config" = true :=
  c10_empty_command_total dbArista none trStub "sw1" "" "" 22
    ⟨"sw1", "admin", "pw", "Arista"⟩ rfl
